import Mathlib

/-!
# go-nil-error-check: typed nil pointers inside interface values

A shallow embedding of `main.go`.  The program demonstrates one point of Go's
semantics: an interface value is a pair of a dynamic type and a value, and it
compares equal to `nil` only when it has no dynamic type.  A nil `*MyError`
converted to `error` therefore yields a non-nil `error`.

Modelling choices

* Go strings are lists of characters (`GoString`); a width counts characters,
  as `utf8.RuneCountInString` does on valid UTF-8.
* A pointer is either `nil` or the address of a value; the address itself is
  never observed by this program, so `Ptr.addr` carries only the pointee.
* An interface value is an inductive with one constructor for the nil interface
  and one constructor per dynamic type that the program can store in it.
* Statements run in the monad `Go`: a state (`World`, the text written to
  standard output) with two ways to stop early, a run-time panic or a `Printf`
  directive outside the modelled fragment of package `fmt`.
-/

namespace NilErrorCheck

/-! ## Values -/

/-- Go strings, as sequences of characters. -/
abbrev GoString := List Char

/-- Pointer values: the zero value `nil`, or the address of a value. -/
inductive Ptr (α : Type) where
  | nil : Ptr α
  | addr (v : α) : Ptr α
  deriving DecidableEq, Repr

/-- Go source: `type MyError struct{}`. -/
structure MyError where
  deriving DecidableEq, Repr

/-- The unexported `errors.errorString`, the concrete type behind the value of
`fmt.Errorf` when the format has no `%w`. -/
structure errorString where
  s : GoString
  deriving DecidableEq, Repr

/-- Go source: `type TestStruct struct{}`. -/
structure TestStruct where
  deriving DecidableEq, Repr

/-- Dynamic types that an `error` value of this program can carry. -/
inductive TypeTag where
  | ptrMyError
  | ptrErrorString
  deriving DecidableEq, Repr

/-- Values of the interface type `error`: the nil interface (no type, no value),
or a dynamic type together with the pointer stored in the value slot. -/
inductive error where
  | nil : error
  | ptrMyError (p : Ptr MyError) : error
  | ptrErrorString (p : Ptr errorString) : error
  deriving DecidableEq, Repr

/-- The type word of an interface value; `none` for the nil interface. -/
def error.typeTag : error → Option TypeTag
  | .nil => none
  | .ptrMyError _ => some .ptrMyError
  | .ptrErrorString _ => some .ptrErrorString

/-- Whether the value slot of an interface value holds a nil pointer. -/
def error.valueIsNil : error → Bool
  | .nil => true
  | .ptrMyError p => decide (p = Ptr.nil)
  | .ptrErrorString p => decide (p = Ptr.nil)

/-- The comparison `err == nil` on an `error`: true exactly for the interface
value without a dynamic type. -/
def error.eqNil : error → Bool
  | .nil => true
  | .ptrMyError _ => false
  | .ptrErrorString _ => false

/-- The comparison `p == nil` on a pointer. -/
def Ptr.eqNil {α : Type} : Ptr α → Bool
  | .nil => true
  | .addr _ => false

/-- Implicit conversion of a `*MyError` to `error` (at a `return` or an
assignment): the dynamic type is set whatever the pointer is. -/
def convPtrMyError (p : Ptr MyError) : error := error.ptrMyError p

/-! ## Execution monad -/

/-- Ways in which a run stops early. -/
inductive Abort where
  | nilDereference
  | unmodelledFormat
  deriving DecidableEq, Repr

/-- One invocation of `trialReport`, with its three arguments. -/
structure Trial where
  name : GoString
  expected : Bool
  actual : Bool
  deriving DecidableEq, Repr

/-- The observable state: the text written to standard output so far, and a
trace of the `trialReport` invocations (a record kept for reasoning; the
program never reads it). -/
structure World where
  stdout : GoString
  calls : List Trial
  deriving DecidableEq, Repr

/-- The state at program start. -/
def World.init : World := ⟨[], []⟩

/-- Statements: state over early termination; the state written before an
abort is kept. -/
abbrev Go := ExceptT Abort (StateM World)

/-- Dereference of a pointer; panics on `nil`. -/
def Ptr.deref {α : Type} : Ptr α → Go α
  | .nil => throw Abort.nilDereference
  | .addr v => pure v

/-! ## Package fmt, the fragment used here

Directives of the form `%`, any number of `-` flags, an optional decimal width,
and one of the verbs `s`, `t`, `v`, `%`, applied to string and boolean operands.
Anything else in a format (other flags, precision, `*`, argument indexes, other
verbs) is outside the fragment and reported as `none`. -/

/-- Operands of a formatted print. -/
inductive Arg where
  | str (s : GoString) : Arg
  | bool (b : Bool) : Arg
  deriving DecidableEq, Repr

/-- Go's name of the operand's type, as printed in diagnostics. -/
def Arg.typeName : Arg → GoString
  | .str _ => "string".toList
  | .bool _ => "bool".toList

/-- Unpadded text of an operand: the string itself, or `true` / `false`. -/
def Arg.text : Arg → GoString
  | .str s => s
  | .bool b => if b then "true".toList else "false".toList

/-- The flags and width of one directive (`fmt.fmtFlags` with `wid`). -/
structure Flags where
  minus : Bool
  widPresent : Bool
  wid : Nat
  deriving DecidableEq, Repr

/-- No flag, no width (`clearflags`). -/
def Flags.clear : Flags := ⟨false, false, 0⟩

/-- Go's `(*fmt).padString`: without a width, or when the text is at least as
wide, the text is written unchanged (never cut); otherwise spaces are added on
the left, or on the right under the `-` flag. -/
def padString (f : Flags) (s : GoString) : GoString :=
  if !f.widPresent || f.wid == 0 then s
  else if f.wid ≤ s.length then s
  else if !f.minus then List.replicate (f.wid - s.length) ' ' ++ s
  else s ++ List.replicate (f.wid - s.length) ' '

/-- Go's `badVerb` for a present operand: `%!verb(type=value)`. -/
def badVerb (verb : Char) (f : Flags) (a : Arg) : GoString :=
  "%!".toList ++ [verb] ++ "(".toList ++ a.typeName ++ "=".toList
    ++ padString f a.text ++ ")".toList

/-- Print one operand under a verb (`printArg`); `none` for a verb outside the
fragment. -/
def printArg (verb : Char) (f : Flags) (a : Arg) : Option GoString :=
  if verb = 'v' then some (padString f a.text)
  else if verb = 's' then
    match a with
    | .str s => some (padString f s)
    | .bool _ => some (badVerb verb f a)
  else if verb = 't' then
    match a with
    | .bool _ => some (padString f a.text)
    | .str _ => some (badVerb verb f a)
  else none

/-- The text for operands left over at the end of the format:
`type=value` items separated by `, `. -/
def extraItems : List Arg → GoString
  | [] => []
  | [a] => a.typeName ++ "=".toList ++ padString Flags.clear a.text
  | a :: b :: rest =>
      a.typeName ++ "=".toList ++ padString Flags.clear a.text ++ ", ".toList
        ++ extraItems (b :: rest)

/-- End of the format: nothing more, or the `%!(EXTRA ...)` diagnostic. -/
def finish : List Arg → GoString
  | [] => []
  | a :: rest => "%!(EXTRA ".toList ++ extraItems (a :: rest) ++ ")".toList

/-- Where the scan of a format stands: in literal text, after `%` among the
flags, or inside the width digits. -/
inductive Mode where
  | text
  | flags (minus : Bool)
  | width (minus : Bool) (wid : Nat)
  deriving DecidableEq, Repr

/-- Handle the verb character `c` that ends a directive, then go on with
`rest`, the result of the remaining format on the remaining operands. -/
def verbStep (c : Char) (f : Flags) (args : List Arg)
    (rest : List Arg → Option GoString) : Option GoString :=
  if c = '%' then (fun r => '%' :: r) <$> rest args
  else
    match args with
    | [] => (fun r => "%!".toList ++ [c] ++ "(MISSING)".toList ++ r) <$> rest []
    | a :: as => do
        let out ← printArg c f a
        let r ← rest as
        pure (out ++ r)

/-- Go's `(*pp).doPrintf` on the fragment, one format character at a time.
As in `parsenum`, a width is given up when the number read so far exceeds
1000000 and another digit follows: the scan then jumps to the end of the
format, which yields `%!(NOVERB)`. -/
def doPrintf : Mode → GoString → List Arg → Option GoString
  | .text, [], args => some (finish args)
  | .text, c :: fs, args =>
      if c = '%' then doPrintf (.flags false) fs args
      else (fun r => c :: r) <$> doPrintf .text fs args
  | .flags _, [], args => some ("%!(NOVERB)".toList ++ finish args)
  | .flags minus, c :: fs, args =>
      if c = '-' then doPrintf (.flags true) fs args
      else if c = '#' ∨ c = '0' ∨ c = '+' ∨ c = ' ' then none
      else if c.isDigit then doPrintf (.width minus (c.toNat - '0'.toNat)) fs args
      else if c = '.' ∨ c = '*' ∨ c = '[' then none
      else verbStep c ⟨minus, false, 0⟩ args (doPrintf .text fs)
  | .width _ _, [], args => some ("%!(NOVERB)".toList ++ finish args)
  | .width minus wid, c :: fs, args =>
      if c.isDigit then
        if 1000000 < wid then some ("%!(NOVERB)".toList ++ finish args)
        else doPrintf (.width minus (wid * 10 + (c.toNat - '0'.toNat))) fs args
      else if c = '.' ∨ c = '*' ∨ c = '[' then none
      else verbStep c ⟨minus, true, wid⟩ args (doPrintf .text fs)

/-- Go's `fmt.Sprintf` on the fragment. -/
def Sprintf (format : GoString) (args : List Arg) : Option GoString :=
  doPrintf .text format args

/-- Go's `fmt.Printf`: the formatted text is appended to standard output. -/
def Printf (format : GoString) (args : List Arg) : Go Unit :=
  match Sprintf format args with
  | none => throw Abort.unmodelledFormat
  | some out => modify (fun w => ⟨w.stdout ++ out, w.calls⟩)

/-- Go's `fmt.Errorf` for a format without `%w`: a non-nil pointer to an
`errorString` holding the formatted text, as an `error`. -/
def Errorf (format : GoString) (args : List Arg) : Go error :=
  match Sprintf format args with
  | none => throw Abort.unmodelledFormat
  | some msg => pure (error.ptrErrorString (Ptr.addr ⟨msg⟩))

/-! ## The program -/

/-- Go source: `func (o *MyError) Error() string`.  The receiver is a pointer
and the body never dereferences it. -/
def MyError.Error (_o : Ptr MyError) : Go GoString :=
  pure "This is a mock error string".toList

/-- Method `Error` of `*errors.errorString`: `return e.s`. -/
def errorString.Error (e : Ptr errorString) : Go GoString := do
  let v ← e.deref
  pure v.s

/-- The call `err.Error()` on an `error`: a panic on the nil interface,
otherwise the method of the dynamic type, applied to the stored pointer. -/
def error.Error : error → Go GoString
  | .nil => throw Abort.nilDereference
  | .ptrMyError p => MyError.Error p
  | .ptrErrorString p => errorString.Error p

/-- Go source: `func trialReport(name string, expected, actual bool)`. -/
def trialReport (name : GoString) (expected actual : Bool) : Go Unit := do
  modify (fun w => ⟨w.stdout, w.calls ++ [⟨name, expected, actual⟩]⟩)
  let mut alert : GoString := []
  if expected != actual then
    alert := "<-- surprising result?".toList
  Printf "%-48s : expected %5t, actual %5t %s\n".toList
    [.str name, .bool expected, .bool actual, .str alert]

/-- Go source: `func GetErrorPtrToError() error` (variant A). -/
def GetErrorPtrToError : error := Id.run do
  let mut err : Ptr MyError := Ptr.nil
  if true then
    err := Ptr.addr {}
  return convPtrMyError err

/-- Go source: `func GetErrorPtrToNil() error` (variant B). -/
def GetErrorPtrToNil : error := Id.run do
  let mut err : Ptr MyError := Ptr.nil
  if false then
    err := Ptr.addr {}
  return convPtrMyError err

/-- Go source: `func GetErrorPtrToNilFixed1() error` (variant C). -/
def GetErrorPtrToNilFixed1 : error := Id.run do
  if false then
    return convPtrMyError (Ptr.addr {})
  return error.nil

/-- Go source: `func GetErrorPtrToNilFixed2() error` (variant D). -/
def GetErrorPtrToNilFixed2 : error := Id.run do
  let mut err : error := error.nil
  if false then
    err := convPtrMyError (Ptr.addr {})
  return err

/-- Go source: `func GetErrorPtrToNilNotFixed() *MyError` (variant E). -/
def GetErrorPtrToNilNotFixed : Ptr MyError := Id.run do
  if false then
    return Ptr.addr {}
  return Ptr.nil

/-- Go source: `func (o TestStruct) GetErrorPtrToNil() error`. -/
def TestStruct.GetErrorPtrToNil (_o : TestStruct) : error := Id.run do
  let mut err : Ptr MyError := Ptr.nil
  if false then
    err := Ptr.addr {}
  return convPtrMyError err

/-- Go source: `func (o TestStruct) GetErrorPtrToNilFixed() error`. -/
def TestStruct.GetErrorPtrToNilFixed (_o : TestStruct) : error := Id.run do
  let mut err : error := error.nil
  if false then
    err := convPtrMyError (Ptr.addr {})
  return err

/-- A value-receiver method called on a `*TestStruct`: Go dereferences the
pointer, then calls the method (`(*p).GetErrorPtrToNil()`). -/
def Ptr.GetErrorPtrToNil (p : Ptr TestStruct) : Go error := do
  let o ← p.deref
  pure o.GetErrorPtrToNil

/-- The call `(*p).GetErrorPtrToNilFixed()` on a `*TestStruct`. -/
def Ptr.GetErrorPtrToNilFixed (p : Ptr TestStruct) : Go error := do
  let o ← p.deref
  pure o.GetErrorPtrToNilFixed

/-- Values of the interface type `TestInterface`: the nil interface, or one of
the two types whose method set has both methods, `TestStruct` and
`*TestStruct`. -/
inductive TestInterface where
  | nil : TestInterface
  | ofTestStruct (v : TestStruct) : TestInterface
  | ofPtrTestStruct (p : Ptr TestStruct) : TestInterface
  deriving DecidableEq, Repr

/-- Dynamic dispatch of `GetErrorPtrToNil` through a `TestInterface`. -/
def TestInterface.GetErrorPtrToNil : TestInterface → Go error
  | .nil => throw Abort.nilDereference
  | .ofTestStruct v => pure v.GetErrorPtrToNil
  | .ofPtrTestStruct p => p.GetErrorPtrToNil

/-- Dynamic dispatch of `GetErrorPtrToNilFixed` through a `TestInterface`. -/
def TestInterface.GetErrorPtrToNilFixed : TestInterface → Go error
  | .nil => throw Abort.nilDereference
  | .ofTestStruct v => pure v.GetErrorPtrToNilFixed
  | .ofPtrTestStruct p => p.GetErrorPtrToNilFixed

/-- Go source: `func main()`. -/
def main : Go Unit := do
  Printf "Error check for nil\n\n".toList []
  let mut err : error := error.nil
  -- baseline tests for basic errors
  trialReport "uninitialized err == nil".toList true err.eqNil
  err ← Errorf "Error".toList []
  trialReport "assigned err == nil".toList false err.eqNil
  err := error.nil
  trialReport "assigned to nil == nil".toList true err.eqNil
  -- function tests
  err := GetErrorPtrToError
  trialReport "GetErrorPtrToError() == nil".toList false err.eqNil
  err := GetErrorPtrToNil
  trialReport "GetErrorPtrToNil() == nil".toList true err.eqNil
  err := GetErrorPtrToNilFixed1
  trialReport "GetErrorPtrToNilFixed1() == nil".toList true err.eqNil
  err := GetErrorPtrToNilFixed2
  trialReport "GetErrorPtrToNilFixed2() == nil".toList true err.eqNil
  err := convPtrMyError GetErrorPtrToNilNotFixed
  trialReport "GetErrorPtrToNilNotFixed() == nil".toList true err.eqNil
  -- struct tests
  err := TestStruct.GetErrorPtrToNil {}
  trialReport "struct.GetErrorPtrToNil() == nil".toList true err.eqNil
  err ← Ptr.GetErrorPtrToNil (Ptr.addr {})
  trialReport "(*struct).GetErrorPtrToNil() == nil".toList true err.eqNil
  err := TestStruct.GetErrorPtrToNilFixed {}
  trialReport "struct.GetErrorPtrToNilFixed() == nil".toList true err.eqNil
  -- interface tests
  let testInterface : TestInterface := TestInterface.ofTestStruct {}
  err ← testInterface.GetErrorPtrToNil
  trialReport "interface.GetErrorPtrToNil() == nil".toList true err.eqNil
  err ← testInterface.GetErrorPtrToNilFixed
  trialReport "interface.GetErrorPtrToNilFixed() == nil".toList true err.eqNil

/-- Run a statement from a given state: the outcome and the final state. -/
def Go.exec {α : Type} (m : Go α) (w : World) : Except Abort α × World :=
  StateT.run (ExceptT.run m) w

/-! ## Observations on the output -/

/-- The lines of a text: maximal runs of characters, each ended by a newline
(a last run without its newline counts as a line too). -/
def splitLines : GoString → List GoString
  | [] => []
  | c :: cs =>
      if c = '\n' then [] :: splitLines cs
      else
        match splitLines cs with
        | [] => [[c]]
        | l :: ls => (c :: l) :: ls

/-- Whether a line ends with the mismatch marker of `trialReport`. -/
def carriesMarker (line : GoString) : Bool :=
  "<-- surprising result?".toList.isSuffixOf line

/-! ## Formatting lemmas -/

/-- Without a width the text is written as it is. -/
theorem padString_noWidth (minus : Bool) (wid : Nat) (s : GoString) :
    padString ⟨minus, false, wid⟩ s = s := by
  simp [padString]

/-- Width 48 under the `-` flag: the text first, then the missing spaces; a
longer text is kept whole. -/
theorem padString_minus48 (s : GoString) :
    padString ⟨true, true, 48⟩ s = s ++ List.replicate (48 - s.length) ' ' := by
  unfold padString
  by_cases h : 48 ≤ s.length
  · simp [h]
  · simp [h]

/-- A boolean in width 5. -/
theorem padString_bool5 (b : Bool) :
    padString ⟨false, true, 5⟩ (Arg.text (.bool b))
      = if b then " true".toList else "false".toList := by
  cases b <;> rfl

/-- The format of `trialReport` on its four operands, for any name and any
alert text. -/
theorem Sprintf_trialFormat (name alert : GoString) (expected actual : Bool) :
    Sprintf "%-48s : expected %5t, actual %5t %s\n".toList
        [.str name, .bool expected, .bool actual, .str alert]
      = some (name ++ List.replicate (48 - name.length) ' ' ++ " : expected ".toList
          ++ (if expected then " true".toList else "false".toList) ++ ", actual ".toList
          ++ (if actual then " true".toList else "false".toList) ++ " ".toList
          ++ alert ++ "\n".toList) := by
  rw [← padString_minus48, ← padString_bool5, ← padString_bool5]
  simp [Sprintf, doPrintf, verbStep, printArg, finish, padString_noWidth]

/-- Running `Printf` when the format is inside the fragment. -/
theorem exec_Printf (format : GoString) (args : List Arg) (out : GoString) (w : World)
    (h : Sprintf format args = some out) :
    Go.exec (Printf format args) w = (Except.ok (), ⟨w.stdout ++ out, w.calls⟩) := by
  unfold Printf
  rw [h]
  rfl

/-! ## The pitfall functions -/

/-- C1: `GetErrorPtrToNil()` returns its never-assigned (nil) `*MyError` as an
`error`; that value has the type tag `*MyError`, a nil pointer in the value
slot, and `err == nil` is false for it. -/
theorem GetErrorPtrToNil_not_nil :
    GetErrorPtrToNil = convPtrMyError Ptr.nil
    ∧ GetErrorPtrToNil.eqNil = false
    ∧ GetErrorPtrToNil.typeTag = some TypeTag.ptrMyError
    ∧ GetErrorPtrToNil.valueIsNil = true := by
  refine ⟨rfl, rfl, rfl, rfl⟩

/-- C2: `GetErrorPtrToNilNotFixed()` returns a nil `*MyError` (as a pointer it
equals nil), and once stored in a variable of type `error` the comparison
`err == nil` is false: the stored value is a typed nil pointer. -/
theorem GetErrorPtrToNilNotFixed_call_site :
    GetErrorPtrToNilNotFixed = Ptr.nil
    ∧ GetErrorPtrToNilNotFixed.eqNil = true
    ∧ (convPtrMyError GetErrorPtrToNilNotFixed).eqNil = false
    ∧ (convPtrMyError GetErrorPtrToNilNotFixed).typeTag = some TypeTag.ptrMyError
    ∧ (convPtrMyError GetErrorPtrToNilNotFixed).valueIsNil = true := by
  refine ⟨rfl, rfl, rfl, rfl, rfl⟩

/-- C3: `GetErrorPtrToNilFixed1()` and `GetErrorPtrToNilFixed2()` both return
the nil interface value (no type tag), so `err == nil` is true for both. -/
theorem fixed_variants_nil :
    GetErrorPtrToNilFixed1 = error.nil
    ∧ GetErrorPtrToNilFixed2 = error.nil
    ∧ GetErrorPtrToNilFixed1.typeTag = none
    ∧ GetErrorPtrToNilFixed2.typeTag = none
    ∧ GetErrorPtrToNilFixed1.eqNil = true
    ∧ GetErrorPtrToNilFixed2.eqNil = true := by
  refine ⟨rfl, rfl, rfl, rfl, rfl, rfl⟩

/-- C4, as stated, fails: it is not the case that exactly one of
`GetErrorPtrToError() == nil` and `GetErrorPtrToNil() == nil` is true. -/
theorem variantA_variantB_not_exactly_one :
    ¬ ((GetErrorPtrToError.eqNil = true ∧ GetErrorPtrToNil.eqNil = false)
      ∨ (GetErrorPtrToError.eqNil = false ∧ GetErrorPtrToNil.eqNil = true)) := by
  decide

/-- C4, amended: both results are non-nil `error` values with the type tag
`*MyError` (`== nil` is false for both); they differ in the pointer in the
value slot, non-nil for `GetErrorPtrToError()` and nil for
`GetErrorPtrToNil()`. -/
theorem variantA_variantB_both_non_nil :
    GetErrorPtrToError.eqNil = false
    ∧ GetErrorPtrToNil.eqNil = false
    ∧ GetErrorPtrToError.typeTag = some TypeTag.ptrMyError
    ∧ GetErrorPtrToNil.typeTag = some TypeTag.ptrMyError
    ∧ GetErrorPtrToError.valueIsNil = false
    ∧ GetErrorPtrToNil.valueIsNil = true := by
  refine ⟨rfl, rfl, rfl, rfl, rfl, rfl⟩

/-- C5: for the methods of `TestStruct` the result is the same in the three
call forms (on a value, on a pointer to it, through a `TestInterface` holding
it), none of which panics: `GetErrorPtrToNil()` yields an `error` for which
`err == nil` is false, `GetErrorPtrToNilFixed()` one for which it is true. -/
theorem method_call_forms_agree (o : TestStruct) (w : World) :
    o.GetErrorPtrToNil.eqNil = false
    ∧ Go.exec (Ptr.GetErrorPtrToNil (Ptr.addr o)) w = (Except.ok o.GetErrorPtrToNil, w)
    ∧ Go.exec (TestInterface.GetErrorPtrToNil (TestInterface.ofTestStruct o)) w
        = (Except.ok o.GetErrorPtrToNil, w)
    ∧ o.GetErrorPtrToNilFixed.eqNil = true
    ∧ Go.exec (Ptr.GetErrorPtrToNilFixed (Ptr.addr o)) w
        = (Except.ok o.GetErrorPtrToNilFixed, w)
    ∧ Go.exec (TestInterface.GetErrorPtrToNilFixed (TestInterface.ofTestStruct o)) w
        = (Except.ok o.GetErrorPtrToNilFixed, w) := by
  refine ⟨rfl, rfl, rfl, rfl, rfl, rfl⟩

/-- C10: `(*MyError).Error()` returns "This is a mock error string" for every
receiver, the nil pointer included, without a panic; and `err.Error()` on the
non-nil `error` returned by `GetErrorPtrToNil()`, whose value slot is a nil
pointer, returns that string without a panic. -/
theorem MyError_Error_total (o : Ptr MyError) (w : World) :
    Go.exec (MyError.Error o) w = (Except.ok "This is a mock error string".toList, w)
    ∧ Go.exec (MyError.Error Ptr.nil) w
        = (Except.ok "This is a mock error string".toList, w)
    ∧ GetErrorPtrToNil.eqNil = false
    ∧ GetErrorPtrToNil.valueIsNil = true
    ∧ Go.exec GetErrorPtrToNil.Error w
        = (Except.ok "This is a mock error string".toList, w) := by
  refine ⟨rfl, rfl, rfl, rfl, rfl⟩

/-! ## The trial runner: lemmas -/

/-- What `trialReport` does for any name: it does not fail and appends to
standard output the name followed by spaces up to 48 characters (a longer name
is kept whole), ` : expected `, the expected boolean in width 5, `, actual `,
the actual boolean in width 5, a space, the marker (`<-- surprising result?`
when expected and actual differ, empty otherwise) and a newline.  The name is
copied as it is: the text has the newlines of the name and the final one. -/
theorem exec_trialReport (name : GoString) (expected actual : Bool) (w : World) :
    ∃ line : GoString,
      Go.exec (trialReport name expected actual) w
        = (Except.ok (), ⟨w.stdout ++ line, w.calls ++ [⟨name, expected, actual⟩]⟩)
      ∧ line = name ++ List.replicate (48 - name.length) ' ' ++ " : expected ".toList
          ++ (if expected then " true".toList else "false".toList) ++ ", actual ".toList
          ++ (if actual then " true".toList else "false".toList) ++ " ".toList
          ++ (if expected = actual then [] else "<-- surprising result?".toList)
          ++ "\n".toList
      ∧ (name ++ List.replicate (48 - name.length) ' ').length = max 48 name.length
      ∧ line.count '\n' = name.count '\n' + 1 := by
  have key : ∀ alert : GoString,
      Go.exec (Printf "%-48s : expected %5t, actual %5t %s\n".toList
          [.str name, .bool expected, .bool actual, .str alert])
          ⟨w.stdout, w.calls ++ [⟨name, expected, actual⟩]⟩
        = (Except.ok (), ⟨w.stdout ++ (name ++ List.replicate (48 - name.length) ' '
            ++ " : expected ".toList
            ++ (if expected then " true".toList else "false".toList) ++ ", actual ".toList
            ++ (if actual then " true".toList else "false".toList) ++ " ".toList
            ++ alert ++ "\n".toList), w.calls ++ [⟨name, expected, actual⟩]⟩) :=
    fun alert => exec_Printf _ _ _ _ (Sprintf_trialFormat name alert expected actual)
  refine ⟨_, ?_, rfl, ?_, ?_⟩
  · cases expected <;> cases actual <;> exact key _
  · simp only [List.length_append, List.length_replicate]
    omega
  · have hrep : (List.replicate (48 - name.length) ' ').count '\n' = 0 :=
      List.count_eq_zero.mpr (fun h => absurd (List.eq_of_mem_replicate h) (by decide))
    cases expected <;> cases actual <;>
    · simp only [List.append_assoc]
      rw [List.count_append, List.count_append, hrep]
      rfl

/-- A text without a newline, followed by one newline, is exactly one line. -/
theorem splitLines_terminated (body : GoString) (h : '\n' ∉ body) :
    splitLines (body ++ "\n".toList) = [body] := by
  induction body with
  | nil => rfl
  | cons c cs ih =>
    have hc : c ≠ '\n' := fun e => h (e ▸ List.mem_cons_self _ _)
    have hcs : '\n' ∉ cs := fun m => h (List.mem_cons_of_mem _ m)
    have step : splitLines (c :: (cs ++ "\n".toList)) = [c :: cs] := by
      simp only [splitLines, if_neg hc, ih hcs]
    exact step

/-! ## The trial runner -/

/-- C6, as stated, fails: for the name made of `a`, a newline and `b`, the
call `trialReport(name, true, true)` writes two lines, not one. -/
theorem trialReport_newline_name_two_lines :
    (Go.exec (trialReport "a\nb".toList true true) World.init).1 = Except.ok ()
    ∧ splitLines (Go.exec (trialReport "a\nb".toList true true) World.init).2.stdout
      = [ "a".toList,
          "b                                              : expected  true, actual  true ".toList ]
    ∧ ¬ ((splitLines
          (Go.exec (trialReport "a\nb".toList true true) World.init).2.stdout).length = 1) := by
  refine ⟨rfl, rfl, ?_⟩
  intro h
  exact absurd h (by decide)

/-- C6, amended: for every name without a newline character and all booleans,
`trialReport` does not fail and writes exactly one line, ended by a newline:
the name followed by spaces up to 48 characters (name first, a longer name
kept whole), ` : expected `, the expected boolean in width 5, `, actual `, the
actual boolean in width 5, a space, and the marker, which is
`<-- surprising result?` when expected and actual differ and empty when they
are equal. -/
theorem trialReport_one_line (name : GoString) (expected actual : Bool) (w : World)
    (h : '\n' ∉ name) :
    ∃ body : GoString,
      Go.exec (trialReport name expected actual) w
        = (Except.ok (),
            ⟨w.stdout ++ (body ++ "\n".toList), w.calls ++ [⟨name, expected, actual⟩]⟩)
      ∧ body = name ++ List.replicate (48 - name.length) ' ' ++ " : expected ".toList
          ++ (if expected then " true".toList else "false".toList) ++ ", actual ".toList
          ++ (if actual then " true".toList else "false".toList) ++ " ".toList
          ++ (if expected = actual then [] else "<-- surprising result?".toList)
      ∧ (name ++ List.replicate (48 - name.length) ' ').length = max 48 name.length
      ∧ '\n' ∉ body
      ∧ splitLines (body ++ "\n".toList) = [body] := by
  obtain ⟨line, hexec, hline, hlen, hcount⟩ := exec_trialReport name expected actual w
  subst hline
  have h0 : name.count '\n' = 0 := List.count_eq_zero.mpr h
  rw [List.count_append, h0] at hcount
  have h1 : ("\n".toList).count '\n' = 1 := rfl
  rw [h1] at hcount
  have hbody : '\n' ∉ name ++ List.replicate (48 - name.length) ' ' ++ " : expected ".toList
          ++ (if expected then " true".toList else "false".toList) ++ ", actual ".toList
          ++ (if actual then " true".toList else "false".toList) ++ " ".toList
          ++ (if expected = actual then [] else "<-- surprising result?".toList) :=
    List.count_eq_zero.mp (by omega)
  exact ⟨_, hexec, rfl, hlen, hbody, splitLines_terminated _ hbody⟩

/-- The amended C6 at a name of the program: the trial of `GetErrorPtrToNil()`
with expected true and actual false, from the initial state. -/
theorem trialReport_one_line_witness :
    '\n' ∉ "GetErrorPtrToNil() == nil".toList
    ∧ ∃ body : GoString,
      Go.exec (trialReport "GetErrorPtrToNil() == nil".toList true false) World.init
        = (Except.ok (),
            ⟨World.init.stdout ++ (body ++ "\n".toList),
              World.init.calls ++ [⟨"GetErrorPtrToNil() == nil".toList, true, false⟩]⟩)
      ∧ body = "GetErrorPtrToNil() == nil".toList
          ++ List.replicate (48 - ("GetErrorPtrToNil() == nil".toList).length) ' '
          ++ " : expected ".toList
          ++ (if true then " true".toList else "false".toList) ++ ", actual ".toList
          ++ (if false then " true".toList else "false".toList) ++ " ".toList
          ++ (if true = false then [] else "<-- surprising result?".toList)
      ∧ ("GetErrorPtrToNil() == nil".toList
          ++ List.replicate (48 - ("GetErrorPtrToNil() == nil".toList).length) ' ').length
          = max 48 ("GetErrorPtrToNil() == nil".toList).length
      ∧ '\n' ∉ body
      ∧ splitLines (body ++ "\n".toList) = [body] :=
  ⟨by decide,
    trialReport_one_line "GetErrorPtrToNil() == nil".toList true false World.init (by decide)⟩

/-! ## One run of main -/

/-- C7, as stated, fails: among the trials that `main` runs there is one, the
trial of `GetErrorPtrToNil()`, whose actual boolean (`err == nil`, false)
differs from the expected boolean in the source (true). -/
theorem main_actual_ne_expected :
    ¬ (∀ t ∈ (Go.exec main World.init).2.calls, t.actual = t.expected) := by
  intro h
  exact absurd (h ⟨"GetErrorPtrToNil() == nil".toList, true, false⟩ (by decide)) (by decide)

/-- C7, amended: of the thirteen trials that `main` runs, eight have an actual
boolean equal to the expected literal; for the other five (the trials of
`GetErrorPtrToNil()`, `GetErrorPtrToNilNotFixed()` and of the method
`GetErrorPtrToNil()` on a struct, on a pointer and through the interface) the
expected literal is true and the actual boolean is false. -/
theorem main_actual_vs_expected :
    ((Go.exec main World.init).2.calls.filter (fun t => t.actual == t.expected)).map Trial.name
      = [ "uninitialized err == nil".toList,
          "assigned err == nil".toList,
          "assigned to nil == nil".toList,
          "GetErrorPtrToError() == nil".toList,
          "GetErrorPtrToNilFixed1() == nil".toList,
          "GetErrorPtrToNilFixed2() == nil".toList,
          "struct.GetErrorPtrToNilFixed() == nil".toList,
          "interface.GetErrorPtrToNilFixed() == nil".toList ]
    ∧ (Go.exec main World.init).2.calls.filter (fun t => t.actual != t.expected)
      = [ ⟨"GetErrorPtrToNil() == nil".toList, true, false⟩,
          ⟨"GetErrorPtrToNilNotFixed() == nil".toList, true, false⟩,
          ⟨"struct.GetErrorPtrToNil() == nil".toList, true, false⟩,
          ⟨"(*struct).GetErrorPtrToNil() == nil".toList, true, false⟩,
          ⟨"interface.GetErrorPtrToNil() == nil".toList, true, false⟩ ] := by
  refine ⟨rfl, rfl⟩

/-- C8, as stated, fails: the number of `trialReport` calls of `main` with
expected different from actual is not four, and neither is the number of
output lines that carry the marker. -/
theorem main_marker_count_ne_four :
    ¬ (((Go.exec main World.init).2.calls.filter
          (fun t => t.expected != t.actual)).length = 4)
    ∧ ¬ (((splitLines (Go.exec main World.init).2.stdout).filter carriesMarker).length = 4) := by
  refine ⟨?_, ?_⟩
  · intro h
    exact absurd h (by decide)
  · intro h
    have h5 : ((splitLines (Go.exec main World.init).2.stdout).filter carriesMarker).length = 5 :=
      rfl
    omega

/-- C8, amended: in one run of `main` exactly five `trialReport` calls have
expected different from actual, those of `GetErrorPtrToNil()`,
`GetErrorPtrToNilNotFixed()`, `struct.GetErrorPtrToNil()`,
`(*struct).GetErrorPtrToNil()` and `interface.GetErrorPtrToNil()`, and exactly
five lines of the output carry the marker `<-- surprising result?`, the lines
of those five trials. -/
theorem main_marker_count_five :
    ((Go.exec main World.init).2.calls.filter (fun t => t.expected != t.actual)).length = 5
    ∧ ((splitLines (Go.exec main World.init).2.stdout).filter carriesMarker).length = 5
    ∧ ((Go.exec main World.init).2.calls.filter (fun t => t.expected != t.actual)).map Trial.name
      = [ "GetErrorPtrToNil() == nil".toList,
          "GetErrorPtrToNilNotFixed() == nil".toList,
          "struct.GetErrorPtrToNil() == nil".toList,
          "(*struct).GetErrorPtrToNil() == nil".toList,
          "interface.GetErrorPtrToNil() == nil".toList ]
    ∧ (splitLines (Go.exec main World.init).2.stdout).filter carriesMarker
      = [ "GetErrorPtrToNil() == nil                        : expected  true, actual false <-- surprising result?".toList,
          "GetErrorPtrToNilNotFixed() == nil                : expected  true, actual false <-- surprising result?".toList,
          "struct.GetErrorPtrToNil() == nil                 : expected  true, actual false <-- surprising result?".toList,
          "(*struct).GetErrorPtrToNil() == nil              : expected  true, actual false <-- surprising result?".toList,
          "interface.GetErrorPtrToNil() == nil              : expected  true, actual false <-- surprising result?".toList ] := by
  refine ⟨rfl, rfl, rfl, rfl⟩

/-- C9, as stated, fails: one run of `main` does not call `trialReport` eleven
times, and the output after the two header lines is not eleven lines. -/
theorem main_trial_count_ne_eleven :
    ¬ ((Go.exec main World.init).2.calls.length = 11)
    ∧ ¬ (((splitLines (Go.exec main World.init).2.stdout).drop 2).length = 11) := by
  refine ⟨?_, ?_⟩
  · intro h
    exact absurd h (by decide)
  · intro h
    have h13 : ((splitLines (Go.exec main World.init).2.stdout).drop 2).length = 13 := rfl
    omega

/-- C9, amended: one run of `main` ends without a panic after exactly thirteen
calls of `trialReport`, in the order of the program text, and writes the
header, an empty line and exactly thirteen trial lines, in that same order. -/
theorem main_thirteen_trials :
    (Go.exec main World.init).1 = Except.ok ()
    ∧ (Go.exec main World.init).2.calls.length = 13
    ∧ (Go.exec main World.init).2.calls.map Trial.name
      = [ "uninitialized err == nil".toList,
          "assigned err == nil".toList,
          "assigned to nil == nil".toList,
          "GetErrorPtrToError() == nil".toList,
          "GetErrorPtrToNil() == nil".toList,
          "GetErrorPtrToNilFixed1() == nil".toList,
          "GetErrorPtrToNilFixed2() == nil".toList,
          "GetErrorPtrToNilNotFixed() == nil".toList,
          "struct.GetErrorPtrToNil() == nil".toList,
          "(*struct).GetErrorPtrToNil() == nil".toList,
          "struct.GetErrorPtrToNilFixed() == nil".toList,
          "interface.GetErrorPtrToNil() == nil".toList,
          "interface.GetErrorPtrToNilFixed() == nil".toList ]
    ∧ splitLines (Go.exec main World.init).2.stdout
      = [ "Error check for nil".toList,
          "".toList,
          "uninitialized err == nil                         : expected  true, actual  true ".toList,
          "assigned err == nil                              : expected false, actual false ".toList,
          "assigned to nil == nil                           : expected  true, actual  true ".toList,
          "GetErrorPtrToError() == nil                      : expected false, actual false ".toList,
          "GetErrorPtrToNil() == nil                        : expected  true, actual false <-- surprising result?".toList,
          "GetErrorPtrToNilFixed1() == nil                  : expected  true, actual  true ".toList,
          "GetErrorPtrToNilFixed2() == nil                  : expected  true, actual  true ".toList,
          "GetErrorPtrToNilNotFixed() == nil                : expected  true, actual false <-- surprising result?".toList,
          "struct.GetErrorPtrToNil() == nil                 : expected  true, actual false <-- surprising result?".toList,
          "(*struct).GetErrorPtrToNil() == nil              : expected  true, actual false <-- surprising result?".toList,
          "struct.GetErrorPtrToNilFixed() == nil            : expected  true, actual  true ".toList,
          "interface.GetErrorPtrToNil() == nil              : expected  true, actual false <-- surprising result?".toList,
          "interface.GetErrorPtrToNilFixed() == nil         : expected  true, actual  true ".toList ]
    ∧ ((splitLines (Go.exec main World.init).2.stdout).drop 2).length = 13
    ∧ (Go.exec main World.init).2.stdout.getLast? = some '\n' := by
  refine ⟨rfl, rfl, rfl, rfl, rfl, ?_⟩
  set_option maxRecDepth 20000 in rfl

end NilErrorCheck
